import Mathlib

/-!
Verification of the batch log-analysis pipeline of this repository
(app/services/ai_service.py and app/services/log_service.py).

Strings are embedded as lists of characters (`Chars`) so that every
operation is structurally recursive and evaluable by the kernel.  The
Python string primitives used by the source (str.strip, str.startswith,
str.split with one colon, str.upper, slicing, `in` substring test,
int(...)) are given faithful char-list counterparts below; they model the
ASCII behaviour exercised by the pipeline.  External collaborators
(the OpenAI completion call, the Mongo batch store, the webhook HTTP
POST, json.loads of the nested event payload) are modelled as oracles:
a completion either raises or returns the response text, a save either
raises or returns the inserted identifier, and the original-event
payload is either absent, unparseable (json.JSONDecodeError), or parsed
with its optional level fields.
-/

abbrev Chars := List Char

/-- Character test of Python's default `str.strip` for the ASCII range. -/
def isPySpace (c : Char) : Bool :=
  c = ' ' || c = '\t' || c = '\n' || c = '\r' || c = '\x0b' || c = '\x0c'

/-- Model of Python `str.strip()` (both ends, default whitespace). -/
def trimStr (s : Chars) : Chars :=
  ((s.dropWhile isPySpace).reverse.dropWhile isPySpace).reverse

/-- Character class stripped by Python `str.strip("- ")`. -/
def isDashSpace (c : Char) : Bool := c = '-' || c = ' '

/-- Model of Python `line.strip("- ")`. -/
def stripDashSpace (s : Chars) : Chars :=
  ((s.dropWhile isDashSpace).reverse.dropWhile isDashSpace).reverse

/-- Model of Python `s.startswith(pre)`: `startsWithC s pre`. -/
def startsWithC : Chars → Chars → Bool
  | _, [] => true
  | [], _ :: _ => false
  | c :: cs, p :: ps => c = p && startsWithC cs ps

/-- Model of Python `pat in s` (substring containment). -/
def strContains : Chars → Chars → Bool
  | [], pat => pat.isEmpty
  | c :: t, pat => startsWithC (c :: t) pat || strContains t pat

/-- Everything after the first colon of the line, `none` when the line has
no colon.  Models Python `line.split(":", 1)[1]`, with `none` standing for
the `IndexError` that the subscript would raise. -/
def afterColonQ : Chars → Option Chars
  | [] => none
  | c :: rest => if c = ':' then some rest else afterColonQ rest

/-- Model of Python `str.upper()` for the ASCII range. -/
def upperStr (s : Chars) : Chars := s.map Char.toUpper

/-- Splits on newline characters; models Python `text.split("\n")`. -/
def splitLinesAux : Chars → Chars → List Chars
  | [], acc => [acc.reverse]
  | c :: rest, acc =>
    if c = '\n' then acc.reverse :: splitLinesAux rest []
    else splitLinesAux rest (c :: acc)

/-- Model of Python `analysis.split("\n")`. -/
def splitLines (s : Chars) : List Chars := splitLinesAux s []

/-- Digit accumulator for `pyIntOfChars`. -/
def digitsToNatAux : Chars → Nat → Option Nat
  | [], acc => some acc
  | c :: rest, acc =>
    if c.isDigit then digitsToNatAux rest (acc * 10 + (c.toNat - 48)) else none

/-- Model of Python `int(s)` on an already-stripped string: an optional
sign followed by at least one ASCII digit; anything else raises
(returns `none`).  Underscore digit grouping and non-ASCII digits are
outside the modelled input space. -/
def pyIntOfChars : Chars → Option Int
  | [] => none
  | '-' :: rest =>
    match rest with
    | [] => none
    | _ :: _ => (digitsToNatAux rest 0).map (fun n => -(n : Int))
  | '+' :: rest =>
    match rest with
    | [] => none
    | _ :: _ => (digitsToNatAux rest 0).map (fun n => (n : Int))
  | c :: rest =>
    if c.isDigit then (digitsToNatAux (c :: rest) 0).map (fun n => (n : Int))
    else none

/-! Section headers, field labels and section tags of the structured
response parser in `AIService.analyze_log` (ai_service.py lines 82-115). -/

def hdrErrorDetection : Chars := ("ERROR DETECTION").data
def hdrCodeAnalysis : Chars := ("CODE ANALYSIS").data
def hdrAnalysis : Chars := ("ANALYSIS").data
def hdrResolution : Chars := ("RESOLUTION").data
def lblType : Chars := ("Type:").data
def lblStatusCode : Chars := ("Status Code:").data
def lblDescription : Chars := ("Description:").data
def lblFileLocation : Chars := ("File Location:").data
def lblProblematicCode : Chars := ("Problematic Code:").data
def lblSuggestedFix : Chars := ("Suggested Fix:").data
def lblSeverity : Chars := ("Severity:").data
def lblImpact : Chars := ("Impact:").data
def lblRootCause : Chars := ("Root Cause:").data
def lblDash : Chars := ("-").data
def secError : Chars := ("error").data
def secCode : Chars := ("code").data
def secAnalysis : Chars := ("analysis").data
def secResolution : Chars := ("resolution").data
def subImmediate : Chars := ("Immediate Actions").data
def subLongTerm : Chars := ("Long-term Solutions").data
def sevMEDIUM : Chars := ("MEDIUM").data
def sevHIGH : Chars := ("HIGH").data
def sevLOW : Chars := ("LOW").data

/-- Fields collected into the Python dict `error_info` during the scan. -/
structure ErrorInfo where
  error_type : Option Chars := none
  status_code : Option Int := none
  error_message : Option Chars := none
  file_location : Option Chars := none
  severity : Option Chars := none
  impact : Option Chars := none
  root_cause : Option Chars := none
deriving DecidableEq

/-- Fields collected into the Python dict `code_info` during the scan. -/
structure CodeInfo where
  problematic_code : Option Chars := none
  suggested_fix : Option Chars := none
deriving DecidableEq

/-- Loop state of the response scan in `analyze_log`: the section tag plus
all accumulators. -/
structure ParseState where
  current_section : Chars := []
  error_info : ErrorInfo := {}
  code_info : CodeInfo := {}
  immediate_actions : List Chars := []
  resolution_steps : List Chars := []
deriving DecidableEq

/-- Value of a `Label: value` line: the text after the first colon,
stripped.  Models `line.split(":", 1)[1].strip()` (total variant; the
call sites guard the line with `startswith`, so the colon exists). -/
def lineValue (line : Chars) : Chars := trimStr ((afterColonQ line).getD [])

/-- Status-code extraction of ai_service.py lines 93-96: the whole
`int(line.split(":", 1)[1].strip())` is inside a bare try/except that
falls back to 500, so neither a missing colon nor a malformed number can
raise here. -/
def statusOf (line : Chars) : Int :=
  match afterColonQ line with
  | none => 500
  | some v =>
    match pyIntOfChars (trimStr v) with
    | some n => n
    | none => 500

/-- One iteration of the response-scan loop of `analyze_log`
(ai_service.py lines 77-115), on the already-stripped line. -/
def processLineCore (st : ParseState) (line : Chars) : ParseState :=
  if line = [] then st
  else if startsWithC line hdrErrorDetection then { st with current_section := secError }
  else if startsWithC line hdrCodeAnalysis then { st with current_section := secCode }
  else if startsWithC line hdrAnalysis then { st with current_section := secAnalysis }
  else if startsWithC line hdrResolution then { st with current_section := secResolution }
  else if startsWithC line lblType ∧ st.current_section = secError then
    { st with error_info := { st.error_info with error_type := some (lineValue line) } }
  else if startsWithC line lblStatusCode ∧ st.current_section = secError then
    { st with error_info := { st.error_info with status_code := some (statusOf line) } }
  else if startsWithC line lblDescription ∧ st.current_section = secError then
    { st with error_info := { st.error_info with error_message := some (lineValue line) } }
  else if startsWithC line lblFileLocation ∧ st.current_section = secError then
    { st with error_info := { st.error_info with file_location := some (lineValue line) } }
  else if startsWithC line lblProblematicCode ∧ st.current_section = secCode then
    { st with code_info := { st.code_info with problematic_code := some (lineValue line) } }
  else if startsWithC line lblSuggestedFix ∧ st.current_section = secCode then
    { st with code_info := { st.code_info with suggested_fix := some (lineValue line) } }
  else if startsWithC line lblSeverity ∧ st.current_section = secAnalysis then
    { st with error_info := { st.error_info with severity := some (upperStr (lineValue line)) } }
  else if startsWithC line lblImpact ∧ st.current_section = secAnalysis then
    { st with error_info := { st.error_info with impact := some (lineValue line) } }
  else if startsWithC line lblRootCause ∧ st.current_section = secAnalysis then
    { st with error_info := { st.error_info with root_cause := some (lineValue line) } }
  else if startsWithC line lblDash then
    (if strContains st.current_section subImmediate then
      { st with immediate_actions := st.immediate_actions ++ [stripDashSpace line] }
    else if strContains st.current_section subLongTerm then
      { st with resolution_steps := st.resolution_steps ++ [stripDashSpace line] }
    else st)
  else st

/-- One iteration of the loop on a raw line: the loop first strips the
line (`line = line.strip()`). -/
def processLine (st : ParseState) (raw : Chars) : ParseState :=
  processLineCore st (trimStr raw)

/-- Scan of the whole response text, as in `analyze_log`:
split on newlines, then fold the per-line step over the initial state. -/
def scanResponse (text : Chars) : ParseState :=
  (splitLines text).foldl processLine {}

/-- Structured record assembled by `analyze_log` (ai_service.py lines
117-131).  The wall-clock `timestamp` field is passed in by the caller. -/
structure AnalysisResult where
  timestamp : Chars
  error_type : Chars
  error_message : Chars
  file_location : Chars
  problematic_code : Option Chars
  suggested_fix : Option Chars
  status_code : Int
  severity : Chars
  impact : Chars
  root_cause : Chars
  immediate_actions : List Chars
  resolution_steps : List Chars
  needs_immediate_attention : Bool
deriving DecidableEq

/-- Final record assembly of `analyze_log` (ai_service.py lines 117-131)
from the scan state: every field takes the scanned value or the written
fallback.  `msg` is `log.source.get("message", "")`. -/
def assembleResult (now msg : Chars) (st : ParseState) : AnalysisResult :=
  { timestamp := now
    error_type := st.error_info.error_type.getD (("Unknown Error").data)
    error_message := st.error_info.error_message.getD (msg.take 150)
    file_location := st.error_info.file_location.getD (("Unknown location").data)
    problematic_code := st.code_info.problematic_code
    suggested_fix := st.code_info.suggested_fix
    status_code := st.error_info.status_code.getD 500
    severity := st.error_info.severity.getD sevMEDIUM
    impact := st.error_info.impact.getD (("Unknown impact").data)
    root_cause := st.error_info.root_cause.getD (("Unknown cause").data)
    immediate_actions := st.immediate_actions
    resolution_steps := st.resolution_steps
    needs_immediate_attention := st.error_info.severity.getD sevMEDIUM = sevHIGH }

/-- Response-parsing step of `AIService.analyze_log` (ai_service.py lines
70-131): scan the raw response text and assemble the result record. -/
def analyzeParse (now msg text : Chars) : AnalysisResult :=
  assembleResult now msg (scanResponse text)

/-! Exception-explicit variant of the scan.  Inside the loop the source
can raise only at the `line.split(":", 1)[1]` subscripts: an IndexError
when the guarded line had no colon.  The status-code branch wraps its
subscript and the int conversion in a bare try/except falling back to
500, so it cannot raise; every other statement of the loop is
exception-free.  `processLineCoreE` therefore raises exactly when a
labeled branch is taken whose line has no colon, and otherwise returns
the state computed by `processLineCore` (whose branch bodies are the
same). -/

/-- Guard of the eight labeled branches whose `line.split(":", 1)[1]`
subscript is not protected by a try/except (all except `Status Code:`). -/
def labelGuard (st : ParseState) (line : Chars) : Bool :=
  (startsWithC line lblType && st.current_section == secError) ||
  (startsWithC line lblDescription && st.current_section == secError) ||
  (startsWithC line lblFileLocation && st.current_section == secError) ||
  (startsWithC line lblProblematicCode && st.current_section == secCode) ||
  (startsWithC line lblSuggestedFix && st.current_section == secCode) ||
  (startsWithC line lblSeverity && st.current_section == secAnalysis) ||
  (startsWithC line lblImpact && st.current_section == secAnalysis) ||
  (startsWithC line lblRootCause && st.current_section == secAnalysis)

/-- Per-line step with the potential IndexError site made explicit. -/
def processLineCoreE (st : ParseState) (line : Chars) : Except Unit ParseState :=
  if labelGuard st line && (afterColonQ line).isNone then .error ()
  else .ok (processLineCore st line)

/-- Loop over the split lines, propagating a raised exception. -/
def foldLinesE : ParseState → List Chars → Except Unit ParseState
  | st, [] => .ok st
  | st, l :: rest =>
    match processLineCoreE st (trimStr l) with
    | .error e => .error e
    | .ok st2 => foldLinesE st2 rest

/-- Exception-explicit scan of the whole response text. -/
def scanResponseE (text : Chars) : Except Unit ParseState :=
  foldLinesE {} (splitLines text)

/-- Exception-explicit response-parsing step of `analyze_log`. -/
def analyzeParseE (now msg text : Chars) : Except Unit AnalysisResult :=
  match scanResponseE text with
  | .error e => .error e
  | .ok st => .ok (assembleResult now msg st)

/-! Custom-prompt analysis: `AIService._parse_custom_analysis`
(ai_service.py lines 351-383), used by `analyze_custom_prompt`. -/

def tagAnalysis : Chars := ("Analysis").data
def tagRecommendations : Chars := ("Recommendations").data
def tagCodeSuggestions : Chars := ("Code Suggestions").data
def tagNextSteps : Chars := ("Next Steps").data
def csRecommendations : Chars := ("recommendations").data
def csCodeSuggestions : Chars := ("code_suggestions").data
def csNextSteps : Chars := ("next_steps").data

/-- Loop state of `_parse_custom_analysis`: section tag plus the four
result accumulators of the literal result dict. -/
structure CustomState where
  current_section : Chars := []
  analysisText : Chars := []
  recommendations : List Chars := []
  code_suggestions : List Chars := []
  next_steps : List Chars := []
deriving DecidableEq

/-- One iteration of the `_parse_custom_analysis` loop on the stripped
line.  Section detection is substring containment, bullets go to the
list selected by the section tag, and other lines accumulate into the
analysis text with a newline appended. -/
def customLineCore (st : CustomState) (line : Chars) : CustomState :=
  if line = [] then st
  else if strContains line tagAnalysis then { st with current_section := secAnalysis }
  else if strContains line tagRecommendations then { st with current_section := csRecommendations }
  else if strContains line tagCodeSuggestions then { st with current_section := csCodeSuggestions }
  else if strContains line tagNextSteps then { st with current_section := csNextSteps }
  else if startsWithC line lblDash then
    (if st.current_section = csRecommendations then
      { st with recommendations := st.recommendations ++ [trimStr (line.drop 1)] }
    else if st.current_section = csCodeSuggestions then
      { st with code_suggestions := st.code_suggestions ++ [trimStr (line.drop 1)] }
    else if st.current_section = csNextSteps then
      { st with next_steps := st.next_steps ++ [trimStr (line.drop 1)] }
    else st)
  else
    (if st.current_section = secAnalysis then
      { st with analysisText := st.analysisText ++ line ++ [Char.ofNat 10] }
    else st)

/-- One iteration on a raw line (the loop strips the line first). -/
def customLine (st : CustomState) (raw : Chars) : CustomState :=
  customLineCore st (trimStr raw)

/-- Model of `_parse_custom_analysis(analysis)`. -/
def parse_custom_analysis (text : Chars) : CustomState :=
  (splitLines text).foldl customLine {}

/-! Python dict values as stored in the per-record analysis dicts. -/

/-- Values occurring in the analysis dicts built by the pipeline. -/
inductive PyVal where
  | vstr : Chars → PyVal
  | vint : Int → PyVal
  | vbool : Bool → PyVal
  | vlist : List Chars → PyVal
  | vnone : PyVal
deriving DecidableEq

/-- A Python dict as an insertion-ordered association list with unique
keys (the pipeline only builds literal dicts and adds fresh keys). -/
abbrev PyDict := List (Chars × PyVal)

/-- Model of `d[key]` returning `none` for a KeyError. -/
def dget : PyDict → Chars → Option PyVal
  | [], _ => none
  | (k, v) :: rest, key => if k = key then some v else dget rest key

/-- Model of `d[key] = v`: replace in place, or append a fresh key. -/
def dset : PyDict → Chars → PyVal → PyDict
  | [], key, v => [(key, v)]
  | (k, w) :: rest, key, v =>
    if k = key then (key, v) :: rest else (k, w) :: dset rest key v

/-- Key list of a dict, in insertion order. -/
def dkeys (d : PyDict) : List Chars := d.map Prod.fst

/-- Python truthiness for the modelled values. -/
def pyTruthy : PyVal → Bool
  | .vstr s => !s.isEmpty
  | .vint n => n != 0
  | .vbool b => b
  | .vlist l => !l.isEmpty
  | .vnone => false

def kTimestamp : Chars := ("timestamp").data
def kErrorType : Chars := ("error_type").data
def kErrorMessage : Chars := ("error_message").data
def kFileLocation : Chars := ("file_location").data
def kProblematicCode : Chars := ("problematic_code").data
def kSuggestedFix : Chars := ("suggested_fix").data
def kStatusCode : Chars := ("status_code").data
def kSeverity : Chars := ("severity").data
def kImpact : Chars := ("impact").data
def kRootCause : Chars := ("root_cause").data
def kImmediateActions : Chars := ("immediate_actions").data
def kResolutionSteps : Chars := ("resolution_steps").data
def kNeedsAttention : Chars := ("needs_immediate_attention").data
def kElkId : Chars := ("elk_id").data
def kAnalysis : Chars := ("analysis").data
def kRecommendations : Chars := ("recommendations").data
def kCodeSuggestions : Chars := ("code_suggestions").data
def kNextSteps : Chars := ("next_steps").data

/-- Optional string as a dict value (`None` becomes null). -/
def optVal : Option Chars → PyVal
  | some s => .vstr s
  | none => .vnone

/-- The dict literal returned by `analyze_log` (ai_service.py lines
117-131), keys in source order. -/
def analysisDict (r : AnalysisResult) : PyDict :=
  [(kTimestamp, .vstr r.timestamp),
   (kErrorType, .vstr r.error_type),
   (kErrorMessage, .vstr r.error_message),
   (kFileLocation, .vstr r.file_location),
   (kProblematicCode, optVal r.problematic_code),
   (kSuggestedFix, optVal r.suggested_fix),
   (kStatusCode, .vint r.status_code),
   (kSeverity, .vstr r.severity),
   (kImpact, .vstr r.impact),
   (kRootCause, .vstr r.root_cause),
   (kImmediateActions, .vlist r.immediate_actions),
   (kResolutionSteps, .vlist r.resolution_steps),
   (kNeedsAttention, .vbool r.needs_immediate_attention)]

/-- The dict literal returned by `_parse_custom_analysis`
(ai_service.py lines 354-359), keys in source order. -/
def customDict (c : CustomState) : PyDict :=
  [(kAnalysis, .vstr c.analysisText),
   (kRecommendations, .vlist c.recommendations),
   (kCodeSuggestions, .vlist c.code_suggestions),
   (kNextSteps, .vlist c.next_steps)]

/-! Log records (app/models/log_model.py `ElkLog`) restricted to the
fields the pipeline reads: `_id`, the optional integer `elk_id`, and
the `_source` dict fields `level_name`, `message` and the nested
`event.original` payload.  The payload is modelled by the outcome of
`json.loads`: absent (the source substitutes the empty-object default),
unparseable (json.JSONDecodeError), or parsed with its optional
`level_name` and numeric `level` entries. -/

/-- Outcome of `json.loads(log.source.get("event", ...).get("original", ...))`. -/
inductive OriginalEvent where
  | absent
  | unparseable
  | parsed (level_name : Option Chars) (level : Option Int)
deriving DecidableEq

/-- The `_source` dict fields read by the pipeline. -/
structure ElkSource where
  level_name : Option Chars := none
  message : Option Chars := none
  event_original : OriginalEvent := .absent
deriving DecidableEq

/-- An ingested log record. -/
structure ElkLog where
  id : Chars
  elk_id : Option Int := none
  source : ElkSource
deriving DecidableEq

/-- Result of the `json.loads` attempt: `none` for JSONDecodeError;
the absent payload defaults to the empty-object text, which parses to an
empty dict (no level fields). -/
def parsedEvent : OriginalEvent → Option (Option Chars × Option Int)
  | .absent => some (none, none)
  | .unparseable => none
  | .parsed ln lv => some (ln, lv)

def lvlERROR : Chars := ("ERROR").data
def lvlEMERGENCY : Chars := ("EMERGENCY").data

/-- First classification step of `analyze_and_save_batch`
(log_service.py lines 120-126): level_name in ERROR/EMERGENCY. -/
def levelFlag (log : ElkLog) : Bool :=
  match log.source.level_name with
  | some l => l == lvlERROR || l == lvlEMERGENCY
  | none => false

/-- Error classification of `analyze_and_save_batch` (log_service.py
lines 119-137): the level flag, possibly upgraded when the parsed
original event has level_name ERROR or numeric level at least 400; a
JSONDecodeError is caught and skips the event check. -/
def is_error_check (log : ElkLog) : Bool :=
  match parsedEvent log.source.event_original with
  | none => levelFlag log
  | some (ln, lv) =>
    if ln == some lvlERROR then true
    else if 400 ≤ lv.getD 0 then true
    else levelFlag log

/-- The record message with the empty-string default:
`log.source.get("message", "")`. -/
def msgOf (log : ElkLog) : Chars := (log.source.message).getD []

/-- Dict value of `log.elk_id` (an optional integer). -/
def elkVal : Option Int → PyVal
  | some n => .vint n
  | none => .vnone

/-- Python truthiness of `log.elk_id` (None and 0 are falsy). -/
def elkTruthy : Option Int → Bool
  | some n => n != 0
  | none => false

/-- Per-record analysis call of the loop (log_service.py lines 142-145):
with a custom prompt, `analyze_custom_prompt` (backend call, then
`_parse_custom_analysis`); otherwise `analyze_log` (backend call, then
the structured response parse).  The backends are oracles that either
raise or return the completion text; both service methods re-raise a
backend exception. -/
def serviceCall (backend customBackend : ElkLog → Except Unit Chars)
    (customPrompt : Option Chars) (now : Chars) (log : ElkLog) :
    Except Unit PyDict :=
  match customPrompt with
  | some _ =>
    match customBackend log with
    | .error e => .error e
    | .ok t => .ok (customDict (parse_custom_analysis t))
  | none =>
    match backend log with
    | .error e => .error e
    | .ok t => .ok (analysisDict (analyzeParse now (msgOf log) t))

/-- The per-record loop of `analyze_and_save_batch` (log_service.py
lines 113-154): classify, analyze flagged records (tagging the result
dict with `elk_id`), and accumulate analyses, error logs and truthy
elk ids in input order.  An exception from a backend call propagates out
of the loop. -/
def processLogs (backend customBackend : ElkLog → Except Unit Chars)
    (customPrompt : Option Chars) (now : Chars) :
    List ElkLog → Except Unit (List PyDict × List ElkLog × List Int)
  | [] => .ok ([], [], [])
  | log :: rest =>
    if is_error_check log then
      match serviceCall backend customBackend customPrompt now log with
      | .error e => .error e
      | .ok d0 =>
        match processLogs backend customBackend customPrompt now rest with
        | .error e => .error e
        | .ok (analyses, error_logs, elk_ids) =>
          .ok (dset d0 kElkId (elkVal log.elk_id) :: analyses,
               log :: error_logs,
               (if elkTruthy log.elk_id then [log.elk_id.getD 0] else []) ++ elk_ids)
    else processLogs backend customBackend customPrompt now rest

/-- Severity tally of the webhook summary (log_service.py lines 69-71):
`sum(1 for a in analyses if a["severity"] == lvl)`; a missing key is a
KeyError. -/
def countSev : List PyDict → Chars → Except Unit Nat
  | [], _ => .ok 0
  | a :: rest, lvl =>
    match dget a kSeverity with
    | none => .error ()
    | some v =>
      match countSev rest lvl with
      | .error e => .error e
      | .ok n => .ok ((if v = PyVal.vstr lvl then 1 else 0) + n)

/-- Critical-files projection of the webhook summary (log_service.py
lines 72-80): entries with a truthy `needs_immediate_attention`,
projected to file location, error type, error message and elk id; any
missing key is a KeyError. -/
def criticalList : List PyDict → Except Unit (List (PyVal × PyVal × PyVal × PyVal))
  | [] => .ok []
  | a :: rest =>
    match dget a kNeedsAttention with
    | none => .error ()
    | some flag =>
      if pyTruthy flag then
        match dget a kFileLocation, dget a kErrorType, dget a kErrorMessage, dget a kElkId with
        | some f, some t, some m, some e =>
          (match criticalList rest with
           | .error err => .error err
           | .ok r => .ok ((f, t, m, e) :: r))
        | _, _, _, _ => .error ()
      else criticalList rest

/-- The summary block of the webhook payload. -/
structure WebhookSummary where
  high_severity : Nat
  medium_severity : Nat
  low_severity : Nat
  critical_files : List (PyVal × PyVal × PyVal × PyVal)
deriving DecidableEq

/-- Payload construction of `send_webhook_notification` (log_service.py
lines 61-84).  A KeyError while building the summary is an exception
raised before any HTTP POST happens. -/
def buildWebhookPayload (analyses : List PyDict) : Except Unit WebhookSummary :=
  match countSev analyses sevHIGH, countSev analyses sevMEDIUM,
        countSev analyses sevLOW, criticalList analyses with
  | .ok h, .ok m, .ok l, .ok c =>
    .ok { high_severity := h, medium_severity := m, low_severity := l, critical_files := c }
  | _, _, _, _ => .error ()

/-- Externally observable persistence and notification effects of one
orchestrator run, in program order. -/
inductive OrchEvent where
  | saveCall (error_logs : List ElkLog) (analyses : List PyDict)
  | webhookPost (ok : Bool)
deriving DecidableEq

/-- Model of `LogService.analyze_and_save_batch` (log_service.py lines
104-183).  `save` is the batch store oracle (`save_batch`: inserted id
or exception); `webhookNet` is the outcome of the HTTP POST once the
payload was built (`ok` for 2xx, `error` for a raise/timeout/non-2xx).
Returns the Python return value together with the list of effects: a
`saveCall` each time the store is invoked and a `webhookPost` each time
a POST is performed.  The function is total: the outer try/except turns
any loop or save exception into a `none` return, and the inner
try/except swallows any webhook exception (payload KeyError before any
POST, or the POST outcome itself). -/
def analyze_and_save_batch (logs : List ElkLog)
    (backend customBackend : ElkLog → Except Unit Chars)
    (customPrompt : Option Chars) (now : Chars)
    (save : List ElkLog → List PyDict → Except Unit Chars)
    (webhookNet : Except Unit Unit) : Option Chars × List OrchEvent :=
  match processLogs backend customBackend customPrompt now logs with
  | .error _ => (none, [])
  | .ok (analyses, error_logs, _elk_ids) =>
    if error_logs = [] then (none, [])
    else
      match save error_logs analyses with
      | .error _ => (none, [OrchEvent.saveCall error_logs analyses])
      | .ok batch_id =>
        match buildWebhookPayload analyses with
        | .error _ => (some batch_id, [OrchEvent.saveCall error_logs analyses])
        | .ok _ =>
          match webhookNet with
          | .error _ =>
            (some batch_id, [OrchEvent.saveCall error_logs analyses, OrchEvent.webhookPost false])
          | .ok _ =>
            (some batch_id, [OrchEvent.saveCall error_logs analyses, OrchEvent.webhookPost true])

/-! Specification-side severity scanner, and concrete fixtures used by
the closed evaluations below. -/

/-- Modelled from the spec (4.3): a scanner that only maintains the
current-section tag (switching on the four fixed headers by
case-sensitive prefix match) and the value of the last `Severity:` line
seen inside the ANALYSIS section, case-normalized to upper case.  It is
compared against the full parser to characterize the parsed severity. -/
def specSevStepCore (p : Chars × Option Chars) (line : Chars) : Chars × Option Chars :=
  if line = [] then p
  else if startsWithC line hdrErrorDetection then (secError, p.2)
  else if startsWithC line hdrCodeAnalysis then (secCode, p.2)
  else if startsWithC line hdrAnalysis then (secAnalysis, p.2)
  else if startsWithC line hdrResolution then (secResolution, p.2)
  else if startsWithC line lblSeverity ∧ p.1 = secAnalysis then
    (p.1, some (upperStr (lineValue line)))
  else p

/-- Spec-side scanner step on a raw line. -/
def specSevStep (p : Chars × Option Chars) (raw : Chars) : Chars × Option Chars :=
  specSevStepCore p (trimStr raw)

/-- Spec-side severity of a response text: the last `Severity:` value
seen inside the ANALYSIS section, uppercased; `none` when no such line
occurs. -/
def specSeverityOf (text : Chars) : Option Chars :=
  ((splitLines text).foldl specSevStep ([], none)).2

/-- A well-formed backend response: all four sections in order, severity
HIGH, and exactly one bullet under `Immediate Actions:`. -/
def wellFormedResponse : Chars :=
  ("ERROR DETECTION\nType: Database Connection Error\nStatus Code: 500\nDescription: Connection refused\nFile Location: app/db.py\n\nCODE ANALYSIS\nProblematic Code: connect with no retry\nSuggested Fix: add retry\n\nANALYSIS\nSeverity: HIGH\nImpact: Downtime\nRoot Cause: DB down\n\nRESOLUTION\nImmediate Actions:\n- Restart service\n\nLong-term Solutions:\n- Add monitoring\n").data

/-- A record message of 151 characters (one over the truncation limit). -/
def msg151 : Chars := List.replicate 151 'a'

/-- An ERROR-level record. -/
def logErrA : ElkLog :=
  { id := ("a").data, elk_id := some 1,
    source := { level_name := some lvlERROR, message := some (("boom a").data),
                event_original := .absent } }

/-- A second ERROR-level record. -/
def logErrC : ElkLog :=
  { id := ("c").data, elk_id := some 3,
    source := { level_name := some lvlERROR, message := some (("boom c").data),
                event_original := .absent } }

/-- An INFO-level record (not an error). -/
def logInfoB : ElkLog :=
  { id := ("b").data, elk_id := some 2,
    source := { level_name := some (("INFO").data), message := some (("fine").data),
                event_original := .absent } }

/-- An INFO-level record whose original-event payload does not parse. -/
def logInfoU : ElkLog :=
  { id := ("u").data, elk_id := none,
    source := { level_name := some (("INFO").data), message := none,
                event_original := .unparseable } }

/-- Backend oracle that raises exactly on record id `a`. -/
def backendFailsOnA : ElkLog → Except Unit Chars :=
  fun l => if l.id = ("a").data then .error () else .ok wellFormedResponse

/-- Backend oracle that always returns the empty response. -/
def backendOkEmpty : ElkLog → Except Unit Chars := fun _ => .ok []

/-- Backend oracle that always raises. -/
def backendRaises : ElkLog → Except Unit Chars := fun _ => .error ()

/-- Batch store oracle whose insert always succeeds. -/
def saveOkB1 : List ElkLog → List PyDict → Except Unit Chars :=
  fun _ _ => .ok (("b-1").data)

/-- The analysis dict the standard path stores for `logErrC` when the
backend answers with the empty response. -/
def w9dict : PyDict :=
  dset (analysisDict (analyzeParse [] (msgOf logErrC) [])) kElkId (elkVal logErrC.elk_id)

/-- The analysis dict the custom-prompt path stores for `logErrC` when
the backend answers with the empty response. -/
def w10dict : PyDict :=
  dset (customDict (parse_custom_analysis [])) kElkId (elkVal logErrC.elk_id)

/-! Structural lemmas about the char-list primitives. -/

/-- A successful `startsWithC` exhibits the rest of the list. -/
lemma startsWithC_exists : ∀ (s pre : Chars), startsWithC s pre = true →
    ∃ rest, s = pre ++ rest := by
  intro s pre
  induction pre generalizing s with
  | nil => exact fun _ => ⟨s, rfl⟩
  | cons p ps ih =>
    cases s with
    | nil => intro h; simp [startsWithC] at h
    | cons c cs =>
      intro h
      simp only [startsWithC, Bool.and_eq_true, decide_eq_true_eq] at h
      obtain ⟨rest, hr⟩ := ih cs h.2
      exact ⟨rest, by simp [h.1, hr]⟩

/-- A list containing a colon has a well-defined after-colon part. -/
lemma afterColonQ_of_mem : ∀ (s : Chars), ':' ∈ s → ∃ v, afterColonQ s = some v := by
  intro s
  induction s with
  | nil => intro h; simp at h
  | cons c cs ih =>
    intro h
    by_cases hc : c = ':'
    · exact ⟨cs, by simp [afterColonQ, hc]⟩
    · have hm : ':' ∈ cs := by
        rcases List.mem_cons.mp h with h1 | h1
        · exact absurd h1.symm hc
        · exact h1
      obtain ⟨v, hv⟩ := ih hm
      exact ⟨v, by simp [afterColonQ, hc, hv]⟩

/-- A line starting with a colon-bearing label contains a colon. -/
lemma mem_of_startsWith {line pre : Chars} (h : startsWithC line pre = true)
    (hc : ':' ∈ pre) : ':' ∈ line := by
  obtain ⟨rest, hr⟩ := startsWithC_exists line pre h
  rw [hr]
  exact List.mem_append_left rest hc

/-- Whenever one of the unguarded label branches fires, the line contains
a colon, so the subscript cannot raise. -/
lemma labelGuard_colon {st : ParseState} {line : Chars}
    (h : labelGuard st line = true) : ∃ v, afterColonQ line = some v := by
  simp only [labelGuard, Bool.or_eq_true, Bool.and_eq_true] at h
  rcases h with ((((((h | h) | h) | h) | h) | h) | h) | h <;>
    exact afterColonQ_of_mem _ (mem_of_startsWith h.1 (by decide))

/-- The per-line step never raises and agrees with the total step. -/
lemma processLineCoreE_ok (st : ParseState) (line : Chars) :
    processLineCoreE st line = .ok (processLineCore st line) := by
  unfold processLineCoreE
  by_cases hg : labelGuard st line = true
  · obtain ⟨v, hv⟩ := labelGuard_colon hg
    simp [hg, hv]
  · simp [Bool.of_not_eq_true hg]

/-- The line loop never raises and agrees with the total scan. -/
lemma foldLinesE_ok : ∀ (lines : List Chars) (st : ParseState),
    foldLinesE st lines = .ok (lines.foldl processLine st) := by
  intro lines
  induction lines with
  | nil => intro st; rfl
  | cons l rest ih =>
    intro st
    simp [foldLinesE, processLineCoreE_ok, ih, List.foldl, processLine]

/-- Two prefixes of the same list are comparable. -/
lemma startsWithC_comp : ∀ (l a b : Chars), startsWithC l a = true →
    startsWithC l b = true → startsWithC a b = true ∨ startsWithC b a = true := by
  intro l
  induction l with
  | nil =>
    intro a b ha hb
    cases a with
    | nil =>
      cases b with
      | nil => exact Or.inl rfl
      | cons y ys => simp [startsWithC] at hb
    | cons x xs => simp [startsWithC] at ha
  | cons c t ih =>
    intro a b ha hb
    cases a with
    | nil =>
      right
      cases b <;> rfl
    | cons x xs =>
      cases b with
      | nil => left; rfl
      | cons y ys =>
        simp only [startsWithC, Bool.and_eq_true, decide_eq_true_eq] at ha hb
        have hxy : x = y := ha.1.symm.trans hb.1
        rcases ih xs ys ha.2 hb.2 with hc | hc
        · left; simp [startsWithC, hxy, hc]
        · right; simp [startsWithC, hxy, hc]

/-- A list that starts with `a` cannot start with an incomparable `b`. -/
lemma not_startsWith_of {l a b : Chars} (ha : startsWithC l a = true)
    (h1 : startsWithC a b = false) (h2 : startsWithC b a = false) :
    startsWithC l b = false := by
  cases hb : startsWithC l b with
  | false => rfl
  | true =>
    rcases startsWithC_comp l a b ha hb with hc | hc
    · rw [h1] at hc; simp at hc
    · rw [h2] at hc; simp at hc

/-- A list starting with a nonempty prefix is nonempty. -/
lemma startsWithC_ne_nil {l pre : Chars} (h : startsWithC l pre = true)
    (hp : pre ≠ []) : l ≠ [] := by
  cases pre with
  | nil => exact absurd rfl hp
  | cons p ps =>
    cases l with
    | nil => simp [startsWithC] at h
    | cons c cs => simp

/-! Projection lemmas for the response-scan step: which branches touch
the section tag, the severity and the error message. -/

/-- The scan step changes the section tag exactly on the four headers. -/
lemma section_step (st : ParseState) (line : Chars) :
    (processLineCore st line).current_section =
      (if line = [] then st.current_section
      else if startsWithC line hdrErrorDetection then secError
      else if startsWithC line hdrCodeAnalysis then secCode
      else if startsWithC line hdrAnalysis then secAnalysis
      else if startsWithC line hdrResolution then secResolution
      else st.current_section) := by
  by_cases h0 : line = []
  · simp [processLineCore, h0]
  · by_cases h1 : startsWithC line hdrErrorDetection = true
    · simp [processLineCore, h0, h1]
    · by_cases h2 : startsWithC line hdrCodeAnalysis = true
      · simp [processLineCore, h0, h1, h2]
      · by_cases h3 : startsWithC line hdrAnalysis = true
        · simp [processLineCore, h0, h1, h2, h3]
        · by_cases h4 : startsWithC line hdrResolution = true
          · simp [processLineCore, h0, h1, h2, h3, h4]
          · simp [processLineCore, h0, h1, h2, h3, h4,
              apply_ite (fun s : ParseState => s.current_section)]

/-- The scan step sets the severity exactly on a `Severity:` line inside
the ANALYSIS section, and preserves it otherwise. -/
lemma severity_step (st : ParseState) (line : Chars) :
    (processLineCore st line).error_info.severity =
      (if startsWithC line lblSeverity = true ∧ st.current_section = secAnalysis then
        some (upperStr (lineValue line))
      else st.error_info.severity) := by
  by_cases hS : startsWithC line lblSeverity = true ∧ st.current_section = secAnalysis
  · have hne : line ≠ [] := startsWithC_ne_nil hS.1 (by decide)
    have h1 : startsWithC line hdrErrorDetection = false :=
      not_startsWith_of hS.1 (by decide) (by decide)
    have h2 : startsWithC line hdrCodeAnalysis = false :=
      not_startsWith_of hS.1 (by decide) (by decide)
    have h3 : startsWithC line hdrAnalysis = false :=
      not_startsWith_of hS.1 (by decide) (by decide)
    have h4 : startsWithC line hdrResolution = false :=
      not_startsWith_of hS.1 (by decide) (by decide)
    have n1 : secAnalysis ≠ secError := by decide
    have n2 : secAnalysis ≠ secCode := by decide
    simp [processLineCore, hne, h1, h2, h3, h4, n1, n2, hS]
  · simp [processLineCore, hS,
      apply_ite (fun s : ParseState => s.error_info.severity)]

/-- The scan step leaves the collected error message unchanged on any
line that does not start with the `Description:` label. -/
lemma error_message_preserved (st : ParseState) (line : Chars)
    (h : startsWithC line lblDescription = false) :
    (processLineCore st line).error_info.error_message =
      st.error_info.error_message := by
  have hc : ¬(startsWithC line lblDescription = true ∧ st.current_section = secError) :=
    fun hx => by simp [h] at hx
  simp [processLineCore, hc,
    apply_ite (fun s : ParseState => s.error_info.error_message)]

/-- One scan step refines one spec-scanner step on the (section,
severity) pair. -/
lemma sev_pair_step (st : ParseState) (line : Chars) :
    ((processLineCore st line).current_section,
     (processLineCore st line).error_info.severity) =
      specSevStepCore (st.current_section, st.error_info.severity) line := by
  rw [section_step, severity_step]
  by_cases hS : startsWithC line lblSeverity = true ∧ st.current_section = secAnalysis
  · have hne : line ≠ [] := startsWithC_ne_nil hS.1 (by decide)
    have h1 : startsWithC line hdrErrorDetection = false :=
      not_startsWith_of hS.1 (by decide) (by decide)
    have h2 : startsWithC line hdrCodeAnalysis = false :=
      not_startsWith_of hS.1 (by decide) (by decide)
    have h3 : startsWithC line hdrAnalysis = false :=
      not_startsWith_of hS.1 (by decide) (by decide)
    have h4 : startsWithC line hdrResolution = false :=
      not_startsWith_of hS.1 (by decide) (by decide)
    simp [specSevStepCore, hne, h1, h2, h3, h4, hS]
  · simp only [specSevStepCore, if_neg hS]
    split_ifs <;> rfl

/-- The whole scan refines the spec scanner on the (section, severity)
pair. -/
lemma scan_sev_pair (lines : List Chars) :
    ∀ st : ParseState,
      ((lines.foldl processLine st).current_section,
       (lines.foldl processLine st).error_info.severity) =
      lines.foldl specSevStep (st.current_section, st.error_info.severity) := by
  induction lines with
  | nil => intro st; rfl
  | cons l rest ih =>
    intro st
    rw [List.foldl_cons, List.foldl_cons, ih]
    congr 1
    exact sev_pair_step st (trimStr l)

/-- The collected error message stays absent when no line of the text
starts (after stripping) with the `Description:` label. -/
lemma scan_error_message_none (lines : List Chars)
    (h : ∀ l ∈ lines, startsWithC (trimStr l) lblDescription = false) :
    ∀ st : ParseState,
      (lines.foldl processLine st).error_info.error_message =
        st.error_info.error_message := by
  induction lines with
  | nil => intro st; rfl
  | cons l rest ih =>
    intro st
    rw [List.foldl_cons]
    rw [ih (fun x hx => h x (List.mem_cons_of_mem l hx))]
    exact error_message_preserved st (trimStr l) (h l (List.mem_cons_self l rest))

/-- C3: for every raw response text (empty, malformed or well-formed),
the response-parsing step of `analyze_log` never throws: the
exception-explicit parse returns exactly the record computed by the
total parse, whose every field is populated with the scanned value or
its written fallback. -/
theorem c3_parse_never_throws (now msg text : Chars) :
    analyzeParseE now msg text = Except.ok (analyzeParse now msg text) := by
  unfold analyzeParseE analyzeParse scanResponseE scanResponse
  rw [foldLinesE_ok]

set_option maxRecDepth 40000 in
/-- C1: evaluating the parser of `analyze_log` on a well-formed response
holding all four section headers, severity HIGH and exactly one bullet
`- Restart service` under `Immediate Actions:` yields
needs_immediate_attention = true, but immediate_actions is empty rather
than the claimed singleton: the bullet-collection guard tests whether
the sub-section name occurs in the section tag, which is always one of
error, code, analysis or resolution, so it never fires. -/
theorem c1_immediate_actions_lost :
    (analyzeParse [] [] wellFormedResponse).needs_immediate_attention = true ∧
    (analyzeParse [] [] wellFormedResponse).severity = sevHIGH ∧
    (analyzeParse [] [] wellFormedResponse).immediate_actions = [] ∧
    strContains wellFormedResponse (("- Restart service").data) = true := by
  decide

set_option maxRecDepth 40000 in
/-- C6 counterexample: a response whose `Severity:` value is `critical`
(not one of HIGH, MEDIUM, LOW) is parsed to severity CRITICAL, not to
the claimed MEDIUM fallback. -/
theorem c6_counterexample :
    (analyzeParse [] [] (("ANALYSIS\nSeverity: critical").data)).severity =
      ("CRITICAL").data ∧
    ("CRITICAL").data ≠ sevHIGH ∧ ("CRITICAL").data ≠ sevMEDIUM ∧
    ("CRITICAL").data ≠ sevLOW ∧ ("CRITICAL").data ≠ sevMEDIUM := by
  decide

/-- C6 (amended): the parsed severity is the case-uppercased value of
the last `Severity:` line encountered inside the ANALYSIS section, and
falls back to MEDIUM exactly when no such line occurs; an unrecognized
value is kept uppercased, not replaced by MEDIUM. -/
theorem c6_severity_characterization (now msg text : Chars) :
    (analyzeParse now msg text).severity = (specSeverityOf text).getD sevMEDIUM := by
  have h := scan_sev_pair (splitLines text) {}
  have h2 : (scanResponse text).error_info.severity = specSeverityOf text := by
    unfold scanResponse specSeverityOf
    exact congrArg Prod.snd h
  simp [analyzeParse, assembleResult, h2]

set_option maxRecDepth 40000 in
/-- C7 counterexample: with a 151-character record message and a
response without a `Description:` line, the fallback error message is
the first 150 characters with no trailing ellipsis, contradicting the
claimed appended ellipsis for truncated messages. -/
theorem c7_counterexample :
    (analyzeParse [] msg151 []).error_message = List.replicate 150 'a' ∧
    List.replicate 150 'a' ≠ List.replicate 150 'a' ++ ("...").data := by
  decide

/-- C7 (amended): whenever no line of the response starts with the
`Description:` label, the resulting error_message is exactly the first
150 characters of the record message; no ellipsis is appended even when
this truncates. -/
theorem c7_description_fallback (now msg text : Chars)
    (h : ∀ l ∈ splitLines text, startsWithC (trimStr l) lblDescription = false) :
    (analyzeParse now msg text).error_message = msg.take 150 := by
  have hnone : (scanResponse text).error_info.error_message = none :=
    scan_error_message_none (splitLines text) h {}
  simp [analyzeParse, assembleResult, hnone]

/-- C7 witness: a concrete response with no `Description:` line, whose
parse falls back to the (un-truncated) record message. -/
theorem c7_witness :
    (analyzeParse [] (("short message").data) (("ANALYSIS\nSeverity: LOW").data)).error_message =
      (("short message").data).take 150 :=
  c7_description_fallback [] (("short message").data)
    (("ANALYSIS\nSeverity: LOW").data) (by decide)

/-- C4: a record whose level_name is ERROR or EMERGENCY is classified as
an error whatever its other fields, including any original-event
payload. -/
theorem c4_level_error_classified (log : ElkLog)
    (h : log.source.level_name = some lvlERROR ∨
         log.source.level_name = some lvlEMERGENCY) :
    is_error_check log = true := by
  have hf : levelFlag log = true := by
    rcases h with h | h <;> simp [levelFlag, h]
  cases hev : log.source.event_original <;>
    simp [is_error_check, parsedEvent, hf, hev]

/-- C4 witness: a concrete ERROR-level record is classified true. -/
theorem c4_witness : is_error_check logErrA = true :=
  c4_level_error_classified logErrA (Or.inl rfl)

/-- C5: a record whose level is outside ERROR/EMERGENCY and whose
original-event payload is absent or unparseable is classified false; the
unparseable payload behaves exactly like the absent one (the event check
is skipped, no exception escapes the classification). -/
theorem c5_non_error_not_classified (log : ElkLog)
    (h1 : log.source.level_name ≠ some lvlERROR)
    (h2 : log.source.level_name ≠ some lvlEMERGENCY)
    (h3 : log.source.event_original = OriginalEvent.absent ∨
          log.source.event_original = OriginalEvent.unparseable) :
    is_error_check log = false := by
  have hf : levelFlag log = false := by
    cases hv : log.source.level_name with
    | none => simp [levelFlag, hv]
    | some l =>
      have e1 : l ≠ lvlERROR := fun he => h1 (by rw [hv, he])
      have e2 : l ≠ lvlEMERGENCY := fun he => h2 (by rw [hv, he])
      simp [levelFlag, hv, e1, e2]
  rcases h3 with h3 | h3 <;> simp [is_error_check, h3, parsedEvent, hf]

/-- C5 witness: a concrete INFO record with an unparseable payload is
classified false. -/
theorem c5_witness : is_error_check logInfoU = false :=
  c5_non_error_not_classified logInfoU (by decide) (by decide) (Or.inr rfl)

/-! Orchestrator lemmas. -/

/-- A batch where nothing is flagged analyzes to the empty accumulators
with no backend call. -/
lemma processLogs_no_error (b cb : ElkLog → Except Unit Chars)
    (cp : Option Chars) (now : Chars) :
    ∀ logs : List ElkLog, (∀ l ∈ logs, is_error_check l = false) →
      processLogs b cb cp now logs = .ok ([], [], []) := by
  intro logs
  induction logs with
  | nil => intro _; rfl
  | cons a rest ih =>
    intro h
    have ha : is_error_check a = false := h a (List.mem_cons_self a rest)
    simp [processLogs, ha, ih (fun x hx => h x (List.mem_cons_of_mem a hx))]

/-- A raising backend call for any flagged record aborts the whole
loop. -/
lemma processLogs_abort (b cb : ElkLog → Except Unit Chars)
    (cp : Option Chars) (now : Chars) :
    ∀ (logs : List ElkLog) (l : ElkLog), l ∈ logs → is_error_check l = true →
      serviceCall b cb cp now l = .error () →
      processLogs b cb cp now logs = .error () := by
  intro logs
  induction logs with
  | nil => intro l hl; exact absurd hl (List.not_mem_nil l)
  | cons a rest ih =>
    intro l hl he hs
    rcases List.mem_cons.mp hl with rfl | hl2
    · simp [processLogs, he, hs]
    · by_cases ha : is_error_check a = true
      · cases hsc : serviceCall b cb cp now a with
        | error e => cases e; simp [processLogs, ha, hsc]
        | ok d => simp [processLogs, ha, hsc, ih l hl2 he hs]
      · simp [processLogs, ha, ih l hl2 he hs]

/-- C8: when no record of the input is classified as an error, the
orchestrator returns the no-batch outcome and produces no effect at all:
in particular the batch store is never invoked. -/
theorem c8_no_error_no_save (logs : List ElkLog)
    (b cb : ElkLog → Except Unit Chars) (cp : Option Chars) (now : Chars)
    (save : List ElkLog → List PyDict → Except Unit Chars)
    (whnet : Except Unit Unit)
    (h : ∀ l ∈ logs, is_error_check l = false) :
    analyze_and_save_batch logs b cb cp now save whnet = (none, []) := by
  unfold analyze_and_save_batch
  rw [processLogs_no_error b cb cp now logs h]
  rfl

/-- C8 witness: a singleton INFO batch returns none with no store
call. -/
theorem c8_witness :
    analyze_and_save_batch [logInfoB] backendRaises backendRaises none []
      saveOkB1 (.ok ()) = (none, []) :=
  c8_no_error_no_save [logInfoB] backendRaises backendRaises none [] saveOkB1
    (.ok ()) (by decide)

/-- C2 counterexample: with two flagged records where the backend raises
on the first, the whole run returns none with no store call, so the
second record is neither analyzed into a persisted batch nor saved,
contradicting per-record isolation. -/
theorem c2_counterexample :
    analyze_and_save_batch [logErrA, logErrC] backendFailsOnA backendRaises
      none [] saveOkB1 (.ok ()) = (none, []) ∧
    is_error_check logErrC = true ∧
    backendFailsOnA logErrC = .ok wellFormedResponse := by
  constructor
  · rfl
  · exact ⟨by decide, rfl⟩

/-- C2 (amended): a backend-call (or custom-prompt) exception for any
flagged record aborts the entire batch: the outer handler catches it,
nothing is analyzed further, the store is never invoked, and the
orchestrator returns none instead of propagating the exception. -/
theorem c2_record_failure_aborts_batch (logs : List ElkLog)
    (b cb : ElkLog → Except Unit Chars) (cp : Option Chars) (now : Chars)
    (save : List ElkLog → List PyDict → Except Unit Chars)
    (whnet : Except Unit Unit) (l : ElkLog)
    (hl : l ∈ logs) (he : is_error_check l = true)
    (hs : serviceCall b cb cp now l = .error ()) :
    analyze_and_save_batch logs b cb cp now save whnet = (none, []) := by
  unfold analyze_and_save_batch
  rw [processLogs_abort b cb cp now logs l hl he hs]

/-- C2 witness: a concrete flagged record whose backend call raises
makes the orchestrator return none with no effects. -/
theorem c2_witness :
    analyze_and_save_batch [logErrA] backendRaises backendRaises none []
      saveOkB1 (.ok ()) = (none, []) :=
  c2_record_failure_aborts_batch [logErrA] backendRaises backendRaises none []
    saveOkB1 (.ok ()) logErrA (List.mem_cons_self logErrA []) (by decide) rfl

/-- C9: when the loop succeeded with a nonempty error set and the batch
store save returns an identifier, the orchestrator returns exactly that
identifier whatever the webhook does (payload failure, raise, timeout or
success), and its effect trace starts with the save: any webhook POST
happens strictly after persistence, and no webhook outcome is escalated. -/
theorem c9_webhook_isolation (logs : List ElkLog)
    (b cb : ElkLog → Except Unit Chars) (cp : Option Chars) (now : Chars)
    (save : List ElkLog → List PyDict → Except Unit Chars)
    (whnet : Except Unit Unit) (analyses : List PyDict)
    (error_logs : List ElkLog) (elk_ids : List Int) (bid : Chars)
    (h1 : processLogs b cb cp now logs = .ok (analyses, error_logs, elk_ids))
    (h2 : error_logs ≠ [])
    (h3 : save error_logs analyses = .ok bid) :
    (analyze_and_save_batch logs b cb cp now save whnet).1 = some bid ∧
    ∃ tail, (analyze_and_save_batch logs b cb cp now save whnet).2 =
      OrchEvent.saveCall error_logs analyses :: tail ∧
      (tail = [] ∨ ∃ ok, tail = [OrchEvent.webhookPost ok]) := by
  unfold analyze_and_save_batch
  rw [h1]
  simp only [h2, if_neg, h3]
  cases hbp : buildWebhookPayload analyses with
  | error e => exact ⟨rfl, [], rfl, Or.inl rfl⟩
  | ok w =>
    cases whnet with
    | error u => exact ⟨rfl, [OrchEvent.webhookPost false], rfl, Or.inr ⟨false, rfl⟩⟩
    | ok u => exact ⟨rfl, [OrchEvent.webhookPost true], rfl, Or.inr ⟨true, rfl⟩⟩

/-! Dict lemmas for the custom-prompt analysis shape. -/

/-- A lookup misses exactly when the key is not among the dict keys. -/
lemma dget_none_iff (d : PyDict) (key : Chars) :
    dget d key = none ↔ key ∉ dkeys d := by
  induction d with
  | nil =>
    constructor
    · intro _ hmem
      exact absurd hmem (List.not_mem_nil key)
    · intro _
      rfl
  | cons kv rest ih =>
    obtain ⟨k, v⟩ := kv
    have hdk : dkeys ((k, v) :: rest) = k :: dkeys rest := rfl
    by_cases hk : k = key
    · constructor
      · intro hcontra
        rw [show dget ((k, v) :: rest) key = some v from by
          rw [show dget ((k, v) :: rest) key =
            (if k = key then some v else dget rest key) from rfl, if_pos hk]] at hcontra
        exact Option.noConfusion hcontra
      · intro hnot
        exfalso
        apply hnot
        rw [hdk, hk]
        exact List.mem_cons_self key (dkeys rest)
    · have hstep : dget ((k, v) :: rest) key = dget rest key := by
        rw [show dget ((k, v) :: rest) key =
          (if k = key then some v else dget rest key) from rfl, if_neg hk]
      rw [hstep, hdk, List.mem_cons, ih]
      constructor
      · intro hn hor
        rcases hor with h1 | h1
        · exact hk h1.symm
        · exact hn h1
      · intro hn h1
        exact hn (Or.inr h1)

/-- Setting a fresh key appends it at the end. -/
lemma dset_fresh (d : PyDict) (key : Chars) (v : PyVal) :
    key ∉ dkeys d → dset d key v = d ++ [(key, v)] := by
  induction d with
  | nil => intro _; rfl
  | cons kv rest ih =>
    obtain ⟨k, w⟩ := kv
    intro h
    have hdk : dkeys ((k, w) :: rest) = k :: dkeys rest := rfl
    have hne : ¬(k = key) := by
      intro hh
      apply h
      rw [hdk, hh]
      exact List.mem_cons_self key (dkeys rest)
    have hrest : key ∉ dkeys rest := by
      intro hmem
      apply h
      rw [hdk]
      exact List.mem_cons_of_mem k hmem
    rw [show dset ((k, w) :: rest) key v =
      (if k = key then (key, v) :: rest else (k, w) :: dset rest key v) from rfl,
      if_neg hne, ih hrest]
    rfl

/-- The elk id key is fresh for the custom-analysis dict. -/
lemma custom_fresh (c : CustomState) : kElkId ∉ dkeys (customDict c) := by
  have hdk : dkeys (customDict c) =
      [kAnalysis, kRecommendations, kCodeSuggestions, kNextSteps] := rfl
  rw [hdk]
  decide

/-- Keys of a stored custom analysis, in insertion order. -/
lemma custom_dset_keys (c : CustomState) (v : PyVal) :
    dkeys (dset (customDict c) kElkId v) =
      [kAnalysis, kRecommendations, kCodeSuggestions, kNextSteps, kElkId] := by
  rw [dset_fresh (customDict c) kElkId v (custom_fresh c)]
  rfl

/-- A stored custom analysis has no entry for any other key. -/
lemma custom_no_key (c : CustomState) (v : PyVal) (key : Chars)
    (h : key ∉ [kAnalysis, kRecommendations, kCodeSuggestions, kNextSteps, kElkId]) :
    dget (dset (customDict c) kElkId v) key = none := by
  rw [dget_none_iff, custom_dset_keys]
  exact h

/-- Building the webhook summary raises a KeyError as soon as the first
analysis has no severity entry. -/
lemma build_error_of_no_severity (a : PyDict) (rest : List PyDict)
    (h : dget a kSeverity = none) :
    buildWebhookPayload (a :: rest) = .error () := by
  have hc : countSev (a :: rest) sevHIGH = .error () := by
    simp [countSev, h]
  cases h2 : countSev (a :: rest) sevMEDIUM <;>
    cases h3 : countSev (a :: rest) sevLOW <;>
      cases h4 : criticalList (a :: rest) <;>
        simp [buildWebhookPayload, hc, h2, h3, h4]

/-- In custom-prompt mode every analysis placed in the accumulator is a
stored custom-analysis dict, and the analyses and error-log lists are
empty together. -/
lemma processLogs_custom_shape (b cb : ElkLog → Except Unit Chars)
    (p : Chars) (now : Chars) :
    ∀ (logs : List ElkLog) (analyses : List PyDict) (error_logs : List ElkLog)
      (elk_ids : List Int),
      processLogs b cb (some p) now logs = .ok (analyses, error_logs, elk_ids) →
      (analyses = [] ↔ error_logs = []) ∧
      ∀ a ∈ analyses, ∃ c v, a = dset (customDict c) kElkId v := by
  intro logs
  induction logs with
  | nil =>
    intro as els ids h
    simp only [processLogs, Except.ok.injEq, Prod.mk.injEq] at h
    obtain ⟨h1, h2, h3⟩ := h
    subst h1
    subst h2
    exact ⟨by simp, by simp⟩
  | cons lg rest ih =>
    intro as els ids h
    by_cases ha : is_error_check lg = true
    · simp only [processLogs, ha, if_true] at h
      cases hcb : cb lg with
      | error e =>
        simp only [serviceCall, hcb] at h
        exact Except.noConfusion h
      | ok t =>
        simp only [serviceCall, hcb] at h
        cases hrec : processLogs b cb (some p) now rest with
        | error e => rw [hrec] at h; simp at h
        | ok trip =>
          obtain ⟨as', els', ids'⟩ := trip
          rw [hrec] at h
          simp only [Except.ok.injEq, Prod.mk.injEq] at h
          obtain ⟨h1, h2, h3⟩ := h
          subst h1
          subst h2
          obtain ⟨hiff, hall⟩ := ih as' els' ids' hrec
          refine ⟨by simp, ?_⟩
          intro a hax
          rcases List.mem_cons.mp hax with rfl | hax2
          · exact ⟨parse_custom_analysis t, elkVal lg.elk_id, rfl⟩
          · exact hall a hax2
    · simp only [processLogs] at h
      rw [if_neg ha] at h
      exact ih as els ids h

/-- C10: in a custom-prompt invocation whose loop succeeded with at
least one flagged record, every analysis handed to the batch store has
exactly the keys analysis, recommendations, code_suggestions,
next_steps and elk_id - none of the AnalysisResult keys severity,
status_code, error_type, needs_immediate_attention - so the webhook
summary build raises a KeyError and the effect trace is the store call
alone, with no POST ever performed. -/
theorem c10_custom_prompt_breaks_webhook (logs : List ElkLog)
    (b cb : ElkLog → Except Unit Chars) (p : Chars) (now : Chars)
    (save : List ElkLog → List PyDict → Except Unit Chars)
    (whnet : Except Unit Unit) (analyses : List PyDict)
    (error_logs : List ElkLog) (elk_ids : List Int)
    (h1 : processLogs b cb (some p) now logs = .ok (analyses, error_logs, elk_ids))
    (h2 : error_logs ≠ []) :
    (∀ a ∈ analyses,
      dkeys a = [kAnalysis, kRecommendations, kCodeSuggestions, kNextSteps, kElkId] ∧
      dget a kSeverity = none ∧ dget a kStatusCode = none ∧
      dget a kErrorType = none ∧ dget a kNeedsAttention = none) ∧
    buildWebhookPayload analyses = .error () ∧
    (analyze_and_save_batch logs b cb (some p) now save whnet).2 =
      [OrchEvent.saveCall error_logs analyses] := by
  obtain ⟨hiff, hshape⟩ := processLogs_custom_shape b cb p now logs analyses
    error_logs elk_ids h1
  have hall : ∀ a ∈ analyses,
      dkeys a = [kAnalysis, kRecommendations, kCodeSuggestions, kNextSteps, kElkId] ∧
      dget a kSeverity = none ∧ dget a kStatusCode = none ∧
      dget a kErrorType = none ∧ dget a kNeedsAttention = none := by
    intro a hax
    obtain ⟨c, v, rfl⟩ := hshape a hax
    exact ⟨custom_dset_keys c v, custom_no_key c v kSeverity (by decide),
      custom_no_key c v kStatusCode (by decide),
      custom_no_key c v kErrorType (by decide),
      custom_no_key c v kNeedsAttention (by decide)⟩
  have hbuild : buildWebhookPayload analyses = .error () := by
    cases hs : analyses with
    | nil => exact absurd (hiff.mp hs) h2
    | cons a rest =>
      exact build_error_of_no_severity a rest
        ((hall a (by rw [hs]; exact List.mem_cons_self a rest)).2.1)
  refine ⟨hall, hbuild, ?_⟩
  unfold analyze_and_save_batch
  rw [h1]
  simp only [h2, if_neg]
  cases hsv : save error_logs analyses with
  | error e => rfl
  | ok bid =>
    rw [hbuild]
    rfl

/-- C10 witness: a concrete custom-prompt run over one ERROR record
shows the five-key analysis dict, the failing summary build, and the
save-only effect trace. -/
theorem c10_witness :
    (∀ a ∈ [w10dict],
      dkeys a = [kAnalysis, kRecommendations, kCodeSuggestions, kNextSteps, kElkId] ∧
      dget a kSeverity = none ∧ dget a kStatusCode = none ∧
      dget a kErrorType = none ∧ dget a kNeedsAttention = none) ∧
    buildWebhookPayload [w10dict] = .error () ∧
    (analyze_and_save_batch [logErrC] backendRaises backendOkEmpty
      (some (("fix it").data)) [] saveOkB1 (.ok ())).2 =
      [OrchEvent.saveCall [logErrC] [w10dict]] :=
  c10_custom_prompt_breaks_webhook [logErrC] backendRaises backendOkEmpty
    (("fix it").data) [] saveOkB1 (.ok ()) [w10dict] [logErrC] [3] rfl
    (by decide)

/-- C9 witness: a concrete run whose save succeeds and whose webhook
POST fails still returns the saved batch identifier, with the save first
in the effect trace. -/
theorem c9_witness :
    (analyze_and_save_batch [logErrC] backendOkEmpty backendRaises none []
      saveOkB1 (.error ())).1 = some (("b-1").data) ∧
    ∃ tail, (analyze_and_save_batch [logErrC] backendOkEmpty backendRaises none []
      saveOkB1 (.error ())).2 = OrchEvent.saveCall [logErrC] [w9dict] :: tail ∧
      (tail = [] ∨ ∃ ok, tail = [OrchEvent.webhookPost ok]) :=
  c9_webhook_isolation [logErrC] backendOkEmpty backendRaises none [] saveOkB1
    (.error ()) [w9dict] [logErrC] [3] (("b-1").data) rfl (by decide) rfl
